import Mathlib

/-!
Shallow embedding of the audit pipeline of the CLI-AGENT smart-contract
analyzer (src/audit/*, src/parser/mod.rs, src/main.rs), and proofs about it.

Modelling conventions:
* Rust `&str` / `String` values flowing through the pipeline are modelled as
  `List Char`; Rust `str::contains` is substring search, modelled by
  `hasSub`.  UTF-8 byte order and code-point order agree, so lexicographic
  comparison of `List Char` matches Rust's `String` ordering.
* Rust `f64` confidences, weights and scores are modelled as `ℚ`: every
  comparison performed by the code (`> 0.80`, `.min(1.0)`, `.min(10.0)`)
  distinguishes the same cases on the rational values as on the floats.
* `HashMap` / `HashSet` are modelled as association lists / lists with
  first-match lookup; all inserted keys are distinct where it matters.
* `async` and logging side effects are dropped: each rule's `check` is a
  pure function of the content for the duration of one run.
-/

namespace CliAgent

/-- Convert a Lean string literal into the `List Char` content model. -/
def lit (s : String) : List Char := s.data

/-- Does `content` start with `pat`?  (Helper for substring search.) -/
def leadsWith : List Char → List Char → Bool
  | [], _ => true
  | _ :: _, [] => false
  | a :: ps, b :: cs => a == b && leadsWith ps cs

/-- Substring occurrence, the model of Rust `str::contains`. -/
def hasSubList (pat : List Char) : List Char → Bool
  | [] => leadsWith pat []
  | l@(_ :: t) => leadsWith pat l || hasSubList pat t

/-- `content.contains(pat)` from the Rust source. -/
def hasSub (content : List Char) (pat : String) : Bool :=
  hasSubList pat.data content

/-- Severity levels, from src/audit/vulnerabilities.rs. -/
inductive Severity where
  | critical
  | high
  | medium
  | low
deriving DecidableEq

/-- A finding, from src/audit/vulnerabilities.rs. -/
structure Vulnerability where
  name : List Char
  severity : Severity
  risk_description : List Char
  recommendation : List Char
deriving DecidableEq

/-- Severity-bucketed result, from src/audit/mod.rs. -/
structure AuditResult where
  critical_vulnerabilities : List Vulnerability
  high_vulnerabilities : List Vulnerability
  medium_vulnerabilities : List Vulnerability
  low_vulnerabilities : List Vulnerability
deriving DecidableEq

/-! ### The weighted multi-signal detector (src/audit/ai_patterns.rs) -/

/-- `AIPatternDetector::new`'s weight table (insertion order preserved;
all keys distinct).  From src/audit/ai_patterns.rs lines 15-39. -/
def pattern_weights : List (String × ℚ) :=
  [("memory_safety", 1.5), ("access_control", 1.4), ("storage_pattern", 1.3),
   ("cross_chain", 1.5),
   ("l2_optimization", 1.4), ("batch_operations", 1.3),
   ("calldata_compression", 1.4), ("state_packing", 1.3),
   ("stylus_pattern", 1.4), ("wasm_pattern", 1.4), ("precompile", 1.3),
   ("arithmetic_safety", 1.4), ("event_validation", 1.2),
   ("upgrade_safety", 1.3), ("dos_protection", 1.4),
   ("input_validation", 1.3), ("timestamp_dependence", 1.3)]

/-- The detector's learning threshold (src/audit/ai_patterns.rs line 44). -/
def learning_threshold : ℚ := 0.80

/-- Rust `str::to_lowercase`, restricted to the per-character lowering that
the ASCII pattern names exercise. -/
def to_lowercase (s : String) : String := ⟨s.data.map Char.toLower⟩

/-- Rust `f64::min` on the rational model (neither argument is ever NaN in
the embedded code). -/
def fmin (a b : ℚ) : ℚ := if a ≤ b then a else b

/-- `AIPatternDetector::apply_pattern_weights` (lines 49-59): look the
lowercased pattern name up in the weight table, default 1.0, multiply and
clamp above by 1.0. -/
def apply_pattern_weights (patterns : List (String × ℚ)) : List (String × ℚ) :=
  patterns.map fun pc =>
    let weight := (pattern_weights.lookup (to_lowercase pc.1)).getD 1
    (pc.1, fmin (pc.2 * weight) 1)

/-- `detect_security_patterns` (lines 80-152): six guarded blocks, each
pushing one (pattern, confidence) pair. -/
def detect_security_patterns (content : List Char) : List (String × ℚ) :=
  (if hasSub content "pub fn" || hasSub content "public" || hasSub content "external" then
    let confidence : ℚ := 0.85
    let confidence := if !hasSub content "#[access_control" && !hasSub content "require!(msg.sender"
      then confidence + 0.10 else confidence
    let confidence := if hasSub content "owner" || hasSub content "admin" || hasSub content "role"
      then confidence + 0.05 else confidence
    [(("Access Control Risk" : String), confidence)]
  else []) ++
  (if hasSub content "unsafe" || hasSub content "*mut" || hasSub content "*const" || hasSub content "raw pointer" then
    let confidence : ℚ := 0.90
    let confidence := if !hasSub content "Box<" && !hasSub content "Rc<"
      then confidence + 0.05 else confidence
    let confidence := if hasSub content "transmute" || hasSub content "offset"
      then confidence + 0.05 else confidence
    [(("Memory Safety Risk" : String), confidence)]
  else []) ++
  (if hasSub content "external_call" || hasSub content "send" || hasSub content "transfer" || hasSub content "call" then
    let confidence : ℚ := 0.90
    let confidence := if hasSub content "self." && !hasSub content "mutex" && !hasSub content "reentrancy_guard"
      then confidence + 0.05 else confidence
    let confidence := if hasSub content "balance" || hasSub content "withdraw" || hasSub content "eth_transfer"
      then confidence + 0.05 else confidence
    [(("Reentrancy Risk" : String), confidence)]
  else []) ++
  (if hasSub content "u256" || hasSub content "u128" || hasSub content "arithmetic" || hasSub content "math" then
    let confidence : ℚ := 0.85
    let confidence := if !hasSub content "checked_add" && !hasSub content "checked_mul"
      then confidence + 0.10 else confidence
    let confidence := if hasSub content "unchecked" || hasSub content "unsafe_" || hasSub content "overflow"
      then confidence + 0.05 else confidence
    [(("Arithmetic Safety Risk" : String), confidence)]
  else []) ++
  (if hasSub content "loop" || hasSub content "for" || hasSub content "while" || hasSub content "array" then
    let confidence : ℚ := 0.80
    let confidence := if !hasSub content "limit" && !hasSub content "max_"
      then confidence + 0.15 else confidence
    let confidence := if hasSub content "push" || hasSub content "extend"
      then confidence + 0.05 else confidence
    [(("DoS Risk" : String), confidence)]
  else []) ++
  (if hasSub content "input" || hasSub content "param" || hasSub content "argument" then
    let confidence : ℚ := 0.80
    let confidence := if !hasSub content "validate" && !hasSub content "require" && !hasSub content "assert"
      then confidence + 0.15 else confidence
    let confidence := if hasSub content "external" || hasSub content "public"
      then confidence + 0.05 else confidence
    [(("Input Validation Risk" : String), confidence)]
  else [])

/-- `detect_l2_optimization_patterns` (lines 154-190). -/
def detect_l2_optimization_patterns (content : List Char) : List (String × ℚ) :=
  (if hasSub content "loop" || hasSub content "for" || hasSub content "while" then
    let confidence : ℚ := 0.75
    let confidence := if !hasSub content "batch" then confidence + 0.15 else confidence
    let confidence := if hasSub content "array" || hasSub content "vec"
      then confidence + 0.1 else confidence
    [(("Batch Operations" : String), confidence)]
  else []) ++
  (if hasSub content "calldata" || hasSub content "input" then
    let confidence : ℚ := 0.75
    let confidence := if !hasSub content "compress" && !hasSub content "packed"
      then confidence + 0.15 else confidence
    let confidence := if hasSub content "encoding" || hasSub content "decode"
      then confidence + 0.1 else confidence
    [(("Calldata Optimization" : String), confidence)]
  else []) ++
  (if hasSub content "struct" || hasSub content "StorageMap" then
    let confidence : ℚ := 0.75
    let confidence := if !hasSub content "#[repr(packed)]" then confidence + 0.15 else confidence
    let confidence := if hasSub content "storage" || hasSub content "state"
      then confidence + 0.1 else confidence
    [(("State Packing" : String), confidence)]
  else [])

/-- `detect_stylus_specific_patterns` (lines 192-228). -/
def detect_stylus_specific_patterns (content : List Char) : List (String × ℚ) :=
  (if hasSub content "stylus_sdk" then
    let confidence : ℚ := 0.75
    let confidence := if !hasSub content "#[stylus_sdk::contract]" then confidence + 0.15 else confidence
    let confidence := if hasSub content "precompile" || hasSub content "native"
      then confidence + 0.1 else confidence
    [(("Stylus SDK Usage" : String), confidence)]
  else []) ++
  (if hasSub content "precompile" then
    let confidence : ℚ := 0.75
    let confidence := if !hasSub content "verify" then confidence + 0.15 else confidence
    let confidence := if hasSub content "unsafe" || hasSub content "external"
      then confidence + 0.1 else confidence
    [(("Precompile Usage" : String), confidence)]
  else []) ++
  (if hasSub content "wasm" then
    let confidence : ℚ := 0.75
    let confidence := if !hasSub content "memory" then confidence + 0.15 else confidence
    let confidence := if hasSub content "export" || hasSub content "import"
      then confidence + 0.1 else confidence
    [(("WASM Optimization" : String), confidence)]
  else [])

/-- `detect_advanced_patterns` (lines 230-278). -/
def detect_advanced_patterns (content : List Char) : List (String × ℚ) :=
  (if hasSub content "event" || hasSub content "emit" || hasSub content "#[event]" then
    let confidence : ℚ := 0.80
    let confidence := if !hasSub content "indexed" then confidence + 0.10 else confidence
    let confidence := if hasSub content "anonymous" || !hasSub content "topic"
      then confidence + 0.10 else confidence
    [(("Event Validation" : String), confidence)]
  else []) ++
  (if hasSub content "upgrade" || hasSub content "proxy" || hasSub content "implementation" then
    let confidence : ℚ := 0.85
    let confidence := if !hasSub content "initialize" || !hasSub content "version"
      then confidence + 0.10 else confidence
    let confidence := if hasSub content "storage" && hasSub content "layout"
      then confidence + 0.05 else confidence
    [(("Upgrade Safety" : String), confidence)]
  else []) ++
  (if hasSub content "bridge" || hasSub content "cross-chain" || hasSub content "L1" || hasSub content "L2" then
    let confidence : ℚ := 0.90
    let confidence := if !hasSub content "verify" || !hasSub content "proof"
      then confidence + 0.05 else confidence
    let confidence := if hasSub content "message" || hasSub content "relay" || hasSub content "gateway"
      then confidence + 0.05 else confidence
    [(("Cross-chain Security" : String), confidence)]
  else []) ++
  (if hasSub content "timestamp" || hasSub content "block.timestamp" || hasSub content "now" then
    let confidence : ℚ := 0.85
    let confidence := if !hasSub content "grace_period" || !hasSub content "time_buffer"
      then confidence + 0.10 else confidence
    let confidence := if hasSub content "require" && hasSub content "time"
      then confidence + 0.05 else confidence
    [(("Timestamp Dependence" : String), confidence)]
  else [])

/-- The detector's cache: content-prefix key to weighted pattern list. -/
abbrev DetectorCache := List (List Char × List (String × ℚ))

/-- The cache key of `analyze_semantic_patterns` (line 62):
`content.get(0..100).unwrap_or(content)` — the first 100 bytes when the
content is at least that long, else the whole content. -/
def cache_key (content : List Char) : List Char :=
  if 100 ≤ content.length then content.take 100 else content

/-- `AIPatternDetector::analyze_semantic_patterns` (lines 61-78), with the
cache state made explicit.  Returns the pattern list and the new cache. -/
def analyze_semantic_patterns (cache : DetectorCache) (content : List Char) :
    List (String × ℚ) × DetectorCache :=
  let key := cache_key content
  match cache.lookup key with
  | some cached => (cached, cache)
  | none =>
    let patterns :=
      detect_security_patterns content ++
      detect_l2_optimization_patterns content ++
      detect_stylus_specific_patterns content ++
      detect_advanced_patterns content
    let patterns := apply_pattern_weights patterns
    (patterns, (key, patterns) :: cache)

/-- The fixed pattern-name-to-Vulnerability mapping inside
`AIPatternDetector::check` (lines 290-364); the wildcard arm `continue`s,
i.e. yields nothing. -/
def detector_translate (p : String) : Option Vulnerability :=
  match p with
  | "Access Control Risk" => some
    { name := lit "Missing Access Control", severity := .high,
      risk_description := lit "Functions lack proper access control mechanisms",
      recommendation := lit "Implement role-based access control using Stylus SDK\x27s security features" }
  | "Memory Safety Risk" => some
    { name := lit "Memory Safety Issue", severity := .critical,
      risk_description := lit "Potential memory corruption from unsafe operations",
      recommendation := lit "Replace unsafe operations with safe alternatives and use Rust\x27s ownership system" }
  | "Reentrancy Risk" => some
    { name := lit "Reentrancy Vulnerability", severity := .critical,
      risk_description := lit "Contract state could be manipulated through external calls",
      recommendation := lit "Implement reentrancy guards and follow checks-effects-interactions pattern" }
  | "Arithmetic Safety Risk" => some
    { name := lit "Arithmetic Safety Risk", severity := .high,
      risk_description := lit "Potential integer overflow/underflow in calculations",
      recommendation := lit "Use checked arithmetic operations and consider using SafeMath equivalents" }
  | "Batch Operations" => some
    { name := lit "Unoptimized Batch Operations", severity := .medium,
      risk_description := lit "Inefficient gas usage in loop operations",
      recommendation := lit "Implement batch processing and optimize loop conditions" }
  | "State Packing" => some
    { name := lit "Inefficient State Packing", severity := .low,
      risk_description := lit "Suboptimal storage layout increases gas costs",
      recommendation := lit "Use packed structs and optimize storage slot usage" }
  | "Event Validation" => some
    { name := lit "Insufficient Event Validation", severity := .medium,
      risk_description := lit "Events may lack proper validation or indexing",
      recommendation := lit "Add proper event parameter validation and optimize indexing" }
  | "Upgrade Safety" => some
    { name := lit "Upgrade Safety Concerns", severity := .high,
      risk_description := lit "Contract upgrades may introduce vulnerabilities",
      recommendation := lit "Implement proper upgrade patterns and storage layout checks" }
  | "Cross-chain Security" => some
    { name := lit "Cross-chain Interaction Risks", severity := .critical,
      risk_description := lit "Unsafe cross-chain message handling",
      recommendation := lit "Implement proper message verification and handle edge cases" }
  | "DoS Risk" => some
    { name := lit "Denial of Service Risk", severity := .high,
      risk_description := lit "Potential for denial-of-service attacks due to unbounded loops or resource consumption.",
      recommendation := lit "Implement input validation and resource limits to prevent DoS attacks." }
  | "Input Validation Risk" => some
    { name := lit "Insufficient Input Validation", severity := .high,
      risk_description := lit "Lack of input validation can lead to unexpected behavior or vulnerabilities.",
      recommendation := lit "Implement robust input validation to sanitize and check all inputs before processing." }
  | "Timestamp Dependence" => some
    { name := lit "Timestamp Dependence Vulnerability", severity := .medium,
      risk_description := lit "Contract logic relies on block timestamps, which can be manipulated by miners.",
      recommendation := lit "Avoid using block timestamps for critical logic; use timelocks or other mechanisms for predictable timing." }
  | _ => none

/-- `AIPatternDetector::check` (lines 283-370): run the semantic analysis,
keep patterns whose confidence strictly exceeds the learning threshold, and
translate each kept pattern through the fixed mapping. -/
def detector_check (cache : DetectorCache) (content : List Char) :
    List Vulnerability × DetectorCache :=
  let analyzed := analyze_semantic_patterns cache content
  (analyzed.1.filterMap fun pc =>
     if learning_threshold < pc.2 then detector_translate pc.1 else none,
   analyzed.2)

/-! ### The aggregator / scorer (src/audit/report.rs) -/

/-- The dedup identity key of `generate_report` (lines 27, 35, 47, 59):
`format!("{}:{}", vuln.name, vuln.recommendation)`. -/
def vuln_key (v : Vulnerability) : List Char :=
  v.name ++ lit ":" ++ v.recommendation

/-- One bucket's pass of `generate_report`'s dedup loop: keep a
vulnerability iff its key is not in the `seen` set, inserting kept keys.
Returns the kept vulnerabilities (whose blocks are appended to the report)
and the updated seen set. -/
def dedup_pass (seen : List (List Char)) :
    List Vulnerability → List Vulnerability × List (List Char)
  | [] => ([], seen)
  | v :: vs =>
    let key := vuln_key v
    if seen.contains key then dedup_pass seen vs
    else
      let rest := dedup_pass (key :: seen) vs
      (v :: rest.1, rest.2)

/-- The vulnerabilities `generate_report` (lines 20-65) actually renders:
one `seen` set threaded through the critical, high, medium and low buckets
in that order.  (The surrounding emptiness checks only skip loops that
would do nothing, so they are behaviour-preserving and omitted.) -/
def report_kept (result : AuditResult) : AuditResult :=
  let p1 := dedup_pass [] result.critical_vulnerabilities
  let p2 := dedup_pass p1.2 result.high_vulnerabilities
  let p3 := dedup_pass p2.2 result.medium_vulnerabilities
  let p4 := dedup_pass p3.2 result.low_vulnerabilities
  ⟨p1.1, p2.1, p3.1, p4.1⟩

/-- `calculate_risk_score` (lines 115-130). -/
def calculate_risk_score (result : AuditResult) : ℚ :=
  let critical_weight : ℚ := 10
  let high_weight : ℚ := 7
  let medium_weight : ℚ := 4
  let low_weight : ℚ := 1
  let total_weight :=
    (result.critical_vulnerabilities.length : ℚ) * critical_weight +
    (result.high_vulnerabilities.length : ℚ) * high_weight +
    (result.medium_vulnerabilities.length : ℚ) * medium_weight +
    (result.low_vulnerabilities.length : ℚ) * low_weight
  let max_score : ℚ := 10
  let normalized_score := total_weight / 3
  fmin normalized_score max_score

/-- Lexicographic order on contents, the model of Rust's `String` ordering
(UTF-8 byte order agrees with code-point order). -/
def lexLe : List Char → List Char → Bool
  | [], _ => true
  | _ :: _, [] => false
  | a :: as, b :: bs => if a < b then true else if b < a then false else lexLe as bs

/-- Rust `Vec::dedup`: collapse runs of equal adjacent elements. -/
def dedupAdj {α : Type} [DecidableEq α] : List α → List α
  | [] => []
  | [a] => [a]
  | a :: b :: t => if a = b then dedupAdj (b :: t) else a :: dedupAdj (b :: t)

/-- `generate_action_items` (lines 132-161): prefix recommendations of the
critical, high and medium buckets with their priority digit, sort, dedup,
then render each with the digit prefix stripped (`&action[3..]`). -/
def generate_action_items (result : AuditResult) : List Char :=
  let actions :=
    result.critical_vulnerabilities.map (fun v => lit "1. " ++ v.recommendation) ++
    result.high_vulnerabilities.map (fun v => lit "2. " ++ v.recommendation) ++
    result.medium_vulnerabilities.map (fun v => lit "3. " ++ v.recommendation)
  let actions := actions.mergeSort lexLe
  let actions := dedupAdj actions
  (actions.map fun action => lit "• " ++ action.drop 3 ++ lit "\n").flatten

/-! ### The boolean detection rules
(src/audit/patterns.rs, memory_safety.rs, l2_patterns.rs,
access_control.rs, test_patterns.rs) -/

/-- `ReentrancyPattern::check` (src/audit/patterns.rs lines 17-36). -/
def reentrancy_pattern_check (content : List Char) : List Vulnerability :=
  if hasSub content "external" && hasSub content "call" then
    [{ name := lit "Potential Reentrancy", severity := .high,
       risk_description := lit "External call detected before state changes",
       recommendation := lit "Implement checks-effects-interactions pattern" }]
  else []

/-- `L2SpecificPattern::check` (src/audit/patterns.rs lines 39-58). -/
def l2_specific_pattern_check (content : List Char) : List Vulnerability :=
  if hasSub content "block.number" || hasSub content "block.timestamp" then
    [{ name := lit "L2 Timing Assumptions", severity := .medium,
       risk_description := lit "Usage of block.number or block.timestamp in L2 context",
       recommendation := lit "Use L2-specific timing mechanisms or account for L2 block timing" }]
  else []

/-- `StorageSecurityPattern::check` (src/audit/patterns.rs lines 61-94). -/
def storage_security_pattern_check (content : List Char) : List Vulnerability :=
  if hasSub content "StorageMap" || hasSub content "StorageVec" then
    let has_bounds_check := hasSub content ".get_or_default()" || hasSub content "if let Some"
    let has_access_control := hasSub content "#[authorize" || hasSub content "require!("
    (if !has_bounds_check then
      [{ name := lit "Unsafe Storage Access", severity := .high,
         risk_description := lit "Storage access without bounds checking",
         recommendation := lit "Implement bounds checking with get_or_default() or Option handling" }]
    else []) ++
    (if !has_access_control then
      [{ name := lit "Missing Storage Access Control", severity := .high,
         risk_description := lit "Storage modification without access control",
         recommendation := lit "Add access control checks using authorize attribute or require macro" }]
    else [])
  else []

/-- `StateTransitionPattern::check` (src/audit/patterns.rs lines 97-130). -/
def state_transition_pattern_check (content : List Char) : List Vulnerability :=
  if hasSub content "pub fn" && (hasSub content "mut self" || hasSub content "&mut self") then
    let has_state_validation := hasSub content "ensure!(" || hasSub content "require!("
    let has_event_emission := hasSub content "emit!(" || hasSub content "log!("
    (if !has_state_validation then
      [{ name := lit "Missing State Validation", severity := .medium,
         risk_description := lit "State transition without proper validation",
         recommendation := lit "Add state validation using ensure! or require! macros" }]
    else []) ++
    (if !has_event_emission then
      [{ name := lit "Missing Event Emission", severity := .low,
         risk_description := lit "State change without event emission",
         recommendation := lit "Emit events for all important state transitions" }]
    else [])
  else []

/-- `CrossChainVulnerabilityPattern::check` (src/audit/patterns.rs lines 133-166). -/
def cross_chain_pattern_check (content : List Char) : List Vulnerability :=
  if hasSub content "cross_chain" || hasSub content "bridge" || hasSub content "L1_to_L2" then
    let has_delay := hasSub content "delay" || hasSub content "timelock"
    let has_verification := hasSub content "verify_proof" || hasSub content "verify_message"
    (if !has_delay then
      [{ name := lit "Missing Cross-Chain Delay", severity := .high,
         risk_description := lit "Cross-chain operation without delay mechanism",
         recommendation := lit "Implement timelock or delay mechanism for cross-chain operations" }]
    else []) ++
    (if !has_verification then
      [{ name := lit "Insufficient Cross-Chain Verification", severity := .critical,
         risk_description := lit "Cross-chain message without proper verification",
         recommendation := lit "Add proper verification for all cross-chain messages" }]
    else [])
  else []

/-- `MemorySafetyRule::check` (src/audit/memory_safety.rs lines 9-96). -/
def memory_safety_check (content : List Char) : List Vulnerability :=
  (if hasSub content "*mut" || hasSub content "*const" then
    [{ name := lit "Raw Pointer Usage", severity := .high,
       risk_description := lit "Raw pointers can lead to memory corruption and undefined behavior",
       recommendation := lit "Use safe alternatives like references or smart pointers" }]
  else []) ++
  (if hasSub content "unsafe" && !hasSub content "unsafe trait" then
    [{ name := lit "Unsafe Block Usage", severity := .critical,
       risk_description := lit "Unsafe blocks can bypass Rust\x27s memory safety guarantees",
       recommendation := lit "Remove unsafe blocks or provide strong safety invariants" }]
  else []) ++
  (if hasSub content "Box::into_raw" || hasSub content "ManuallyDrop" then
    [{ name := lit "Potential Memory Leak", severity := .high,
       risk_description := lit "Memory leaks can cause resource exhaustion and contract failure",
       recommendation := lit "Ensure proper cleanup of resources and avoid manual memory management" }]
  else []) ++
  (if hasSub content "MaybeUninit" || hasSub content "std::mem::uninitialized" then
    [{ name := lit "Uninitialized Memory Usage", severity := .critical,
       risk_description := lit "Using uninitialized memory leads to undefined behavior",
       recommendation := lit "Initialize all memory before use and avoid MaybeUninit when possible" }]
  else []) ++
  (if hasSub content "\x27static" && hasSub content "&mut" then
    [{ name := lit "Suspicious Lifetime Usage", severity := .medium,
       risk_description := lit "Improper lifetime usage can lead to memory safety issues",
       recommendation := lit "Review lifetime annotations and ensure they are necessary" }]
  else []) ++
  (if hasSub content "stylus_sdk" then
    (if hasSub content "Vec::with_capacity" && hasSub content ">1024" then
      [{ name := lit "Large Memory Allocation", severity := .high,
         risk_description := lit "Large memory allocations can cause contract execution failures",
         recommendation := lit "Use smaller, fixed-size allocations or paginate data" }]
    else []) ++
    (if hasSub content "storage::" && !hasSub content "try_" then
      [{ name := lit "Unchecked Storage Access", severity := .medium,
         risk_description := lit "Storage operations without error handling may fail silently",
         recommendation := lit "Use try_ variants for storage operations and handle errors explicitly" }]
    else []) ++
    (if hasSub content "external::" && !hasSub content "Result<" then
      [{ name := lit "Unchecked External Calls", severity := .high,
         risk_description := lit "External calls without proper error handling can lead to undefined state",
         recommendation := lit "Always use Result for external calls and handle all error cases" }]
    else [])
  else [])

/-- `L2OptimizationRule::check` (src/audit/l2_patterns.rs lines 10-83). -/
def l2_optimization_check (content : List Char) : List Vulnerability :=
  (if hasSub content "loop" && !hasSub content "batch" then
    [{ name := lit "Missing Batch Operations", severity := .medium,
       risk_description := lit "Non-batched operations may lead to higher gas costs on L2",
       recommendation := lit "Implement batching for loop operations to optimize gas costs" }]
  else []) ++
  (if hasSub content "&[u8]" || hasSub content "Vec<u8>" then
    (if !hasSub content "compression" && !hasSub content "compact" then
      [{ name := lit "Unoptimized Calldata", severity := .medium,
         risk_description := lit "Uncompressed calldata increases L1 posting costs",
         recommendation := lit "Implement calldata compression for large data structures" }]
    else [])
  else []) ++
  (if hasSub content "StorageMap" || hasSub content "StorageVec" then
    (if !hasSub content "packed" && !hasSub content "#[repr(packed)]" then
      [{ name := lit "Unpacked Storage", severity := .low,
         risk_description := lit "Inefficient storage slot usage increases gas costs",
         recommendation := lit "Pack storage slots efficiently using appropriate data layouts" }]
    else [])
  else []) ++
  (if hasSub content "emit!" || hasSub content "log!" then
    (if !hasSub content "indexed" then
      [{ name := lit "Unoptimized Event Indexing", severity := .low,
         risk_description := lit "Non-indexed events may increase gas costs and reduce searchability",
         recommendation := lit "Use indexed parameters for searchable event data" }]
    else [])
  else []) ++
  (if hasSub content "stylus_sdk" then
    (if !hasSub content "prealloc" && (hasSub content "Vec::new" || hasSub content "String::new") then
      [{ name := lit "Non-preallocated Collections", severity := .medium,
         risk_description := lit "Dynamic allocation in Stylus contracts can be expensive",
         recommendation := lit "Use preallocation for collections when size is known" }]
    else []) ++
    (if hasSub content "call!" && !hasSub content "multicall" then
      [{ name := lit "Unoptimized Cross-Contract Calls", severity := .medium,
         risk_description := lit "Multiple separate calls increase L2 operation costs",
         recommendation := lit "Use multicall pattern for batching cross-contract interactions" }]
    else [])
  else [])

/-- `AccessControlRule::check` (src/audit/access_control.rs lines 10-58). -/
def access_control_check (content : List Char) : List Vulnerability :=
  (if hasSub content "pub fn" && !hasSub content "#[access_control" then
    let has_role_check := hasSub content "require!(msg.sender" ||
                          hasSub content "ensure!(is_owner" ||
                          hasSub content "only_owner"
    (if !has_role_check then
      [{ name := lit "Missing Access Control", severity := .high,
         risk_description := lit "Functions can be called by unauthorized users",
         recommendation := lit "Implement role-based access control using Stylus SDK" }]
    else [])
  else []) ++
  (if hasSub content "admin" || hasSub content "owner" then
    (if !hasSub content "initialize" || !hasSub content "constructor" then
      [{ name := lit "Uninitialized Admin Role", severity := .critical,
         risk_description := lit "Contract may lack proper administrative controls",
         recommendation := lit "Initialize admin roles in constructor or initialization function" }]
    else [])
  else []) ++
  (if hasSub content "role" || hasSub content "permission" then
    let has_role_management := hasSub content "grant_role" ||
                               hasSub content "revoke_role" ||
                               hasSub content "renounce_role"
    (if !has_role_management then
      [{ name := lit "Incomplete Role Management", severity := .medium,
         risk_description := lit "Unable to modify roles after deployment",
         recommendation := lit "Implement complete role management functionality" }]
    else [])
  else [])

/-- `TestPatternRule::check` (src/audit/test_patterns.rs lines 10-63). -/
def test_pattern_check (content : List Char) : List Vulnerability :=
  (if !hasSub content "#[cfg(test)]" then
    [{ name := lit "Missing Test Module", severity := .medium,
       risk_description := lit "Untested code may contain bugs or vulnerabilities",
       recommendation := lit "Add comprehensive test module with unit tests" }]
  else []) ++
  (if hasSub content "#[test]" && !hasSub content "assert" then
    [{ name := lit "Missing Test Assertions", severity := .medium,
       risk_description := lit "Tests without assertions may not verify functionality",
       recommendation := lit "Add assertions to verify test outcomes" }]
  else []) ++
  (if !hasSub content "#[test]" || !hasSub content "integration" then
    [{ name := lit "Missing Integration Tests", severity := .low,
       risk_description := lit "Contract interactions may not be fully tested",
       recommendation := lit "Add integration tests for contract interactions" }]
  else []) ++
  (if !hasSub content "quickcheck" && !hasSub content "proptest" then
    [{ name := lit "Missing Fuzz Testing", severity := .low,
       risk_description := lit "Edge cases may not be discovered through regular testing",
       recommendation := lit "Implement property-based testing using quickcheck or proptest" }]
  else []) ++
  (if hasSub content "#[test]" && !hasSub content "should_panic" then
    [{ name := lit "Missing Error Case Tests", severity := .medium,
       risk_description := lit "Error handling may not be properly tested",
       recommendation := lit "Add tests for error cases using #[should_panic]" }]
  else [])

/-! ### The rule registry / runner (src/audit/mod.rs) -/

/-- An `AuditRule` trait object: a static name and a `check` that either
returns findings or fails.  Within one `analyze` run each rule's `check`
is a fixed function of the content. -/
structure Rule where
  name : String
  check : List Char → Except String (List Vulnerability)

/-- The empty accumulator built at the start of `analyze`. -/
def empty_result : AuditResult := ⟨[], [], [], []⟩

/-- Route one vulnerability into the bucket matching its severity
(src/audit/mod.rs lines 92-99). -/
def push_vuln (acc : AuditResult) (v : Vulnerability) : AuditResult :=
  match v.severity with
  | .critical => { acc with critical_vulnerabilities := acc.critical_vulnerabilities ++ [v] }
  | .high => { acc with high_vulnerabilities := acc.high_vulnerabilities ++ [v] }
  | .medium => { acc with medium_vulnerabilities := acc.medium_vulnerabilities ++ [v] }
  | .low => { acc with low_vulnerabilities := acc.low_vulnerabilities ++ [v] }

/-- Route a list of vulnerabilities in order. -/
def push_vulns (acc : AuditResult) (vs : List Vulnerability) : AuditResult :=
  vs.foldl push_vuln acc

/-- The contribution of one rule's `check` outcome: findings on success,
nothing on the logged-and-skipped error path (lines 90-104). -/
def rule_vulns : Except String (List Vulnerability) → List Vulnerability
  | .ok vs => vs
  | .error _ => []

/-- `Iterator::position`: index of the first element satisfying `p`. -/
def findIdxO {α : Type} (p : α → Bool) : List α → Option Nat
  | [] => none
  | a :: l => if p a then some 0 else (findIdxO p l).map (· + 1)

/-- `Vec::swap_remove i`: overwrite index `i` with the last element and
drop the last slot. -/
def swap_remove {α : Type} (l : List α) (i : Nat) : List α :=
  match l.getLast? with
  | none => []
  | some a => l.dropLast.set i a

/-- The per-rule loop of `AuditAnalyzer::analyze` (lines 73-113): for each
collected rule name, find the rule by name in the guarded collection,
`swap_remove` it, run its `check`, bucket the findings (or skip on error),
and push the rule back at the end.  `none` models the `Err` return when a
name is no longer found. -/
def run_rules (content : List Char) :
    List String → List Rule → AuditResult → Option (List Rule × AuditResult)
  | [], rules, acc => some (rules, acc)
  | n :: ns, rules, acc =>
    match findIdxO (fun r => r.name == n) rules with
    | none => none
    | some i =>
      match rules[i]? with
      | none => none
      | some r =>
        run_rules content ns (swap_remove rules i ++ [r])
          (push_vulns acc (rule_vulns (r.check content)))

/-- `AuditAnalyzer::analyze` on in-memory content (lines 46-116): snapshot
the rule names, then run the per-rule loop.  Returns the final rule
collection and the bucketed result. -/
def analyze (rules : List Rule) (content : List Char) :
    Option (List Rule × AuditResult) :=
  run_rules content (rules.map (·.name)) rules empty_result

/-- `create_default_rules` (src/audit/patterns.rs lines 168-181): the ten
registered rules, in registration order.  The `AIPatternDetector` is
constructed fresh, so its cache starts empty. -/
def create_default_rules : List Rule :=
  [⟨"Reentrancy Pattern Checker", fun c => .ok (reentrancy_pattern_check c)⟩,
   ⟨"L2-Specific Pattern Checker", fun c => .ok (l2_specific_pattern_check c)⟩,
   ⟨"Storage Security Pattern Analyzer", fun c => .ok (storage_security_pattern_check c)⟩,
   ⟨"State Transition Pattern Analyzer", fun c => .ok (state_transition_pattern_check c)⟩,
   ⟨"Cross-Chain Vulnerability Analyzer", fun c => .ok (cross_chain_pattern_check c)⟩,
   ⟨"Memory Safety Analyzer", fun c => .ok (memory_safety_check c)⟩,
   ⟨"L2 Optimization Analyzer", fun c => .ok (l2_optimization_check c)⟩,
   ⟨"Access Control Pattern Analyzer", fun c => .ok (access_control_check c)⟩,
   ⟨"Testing Pattern Analyzer", fun c => .ok (test_pattern_check c)⟩,
   ⟨"AI-Powered Security & Pattern Analyzer", fun c => .ok (detector_check [] c).1⟩]

/-! ### The SourceIR builder dispatch (src/parser/mod.rs) -/

/-- The dialect tag of a parsed contract. -/
inductive ContractType where
  | solidity
  | stylus
deriving DecidableEq

/-- `ParsedContract::new` (src/parser/mod.rs lines 43-55): try the Solidity
grammar first, then the Rust grammar, else fail with the parse error.  The
two grammar parsers are external crates (solang_parser, syn), so their
outcomes on the given content are passed in as parameters; the repository
code is only this dispatch. -/
def parsed_contract_new {σ ρ : Type} (solidity_result : Option σ)
    (rust_result : Option ρ) (content : List Char) :
    Except (List Char) (ContractType × List Char) :=
  match solidity_result with
  | some _ => .ok (.solidity, content)
  | none =>
    match rust_result with
    | some _ => .ok (.stylus, content)
    | none => .error (lit "Failed to parse contract as either Solidity or Rust")

/-! ### Spec-side definitions, used to compare the code against the
spec's phrasing, and concrete inputs for witnesses and counterexamples. -/

/-- The spec's "fixed mapping table from pattern-category name to
(name, severity, description, recommendation)", written as a finite
association table (one row per arm of the `check` match that produces a
vulnerability). -/
def vulnerability_mapping_table : List (String × Vulnerability) :=
  [("Access Control Risk",
    { name := lit "Missing Access Control", severity := .high,
      risk_description := lit "Functions lack proper access control mechanisms",
      recommendation := lit "Implement role-based access control using Stylus SDK\x27s security features" }),
   ("Memory Safety Risk",
    { name := lit "Memory Safety Issue", severity := .critical,
      risk_description := lit "Potential memory corruption from unsafe operations",
      recommendation := lit "Replace unsafe operations with safe alternatives and use Rust\x27s ownership system" }),
   ("Reentrancy Risk",
    { name := lit "Reentrancy Vulnerability", severity := .critical,
      risk_description := lit "Contract state could be manipulated through external calls",
      recommendation := lit "Implement reentrancy guards and follow checks-effects-interactions pattern" }),
   ("Arithmetic Safety Risk",
    { name := lit "Arithmetic Safety Risk", severity := .high,
      risk_description := lit "Potential integer overflow/underflow in calculations",
      recommendation := lit "Use checked arithmetic operations and consider using SafeMath equivalents" }),
   ("Batch Operations",
    { name := lit "Unoptimized Batch Operations", severity := .medium,
      risk_description := lit "Inefficient gas usage in loop operations",
      recommendation := lit "Implement batch processing and optimize loop conditions" }),
   ("State Packing",
    { name := lit "Inefficient State Packing", severity := .low,
      risk_description := lit "Suboptimal storage layout increases gas costs",
      recommendation := lit "Use packed structs and optimize storage slot usage" }),
   ("Event Validation",
    { name := lit "Insufficient Event Validation", severity := .medium,
      risk_description := lit "Events may lack proper validation or indexing",
      recommendation := lit "Add proper event parameter validation and optimize indexing" }),
   ("Upgrade Safety",
    { name := lit "Upgrade Safety Concerns", severity := .high,
      risk_description := lit "Contract upgrades may introduce vulnerabilities",
      recommendation := lit "Implement proper upgrade patterns and storage layout checks" }),
   ("Cross-chain Security",
    { name := lit "Cross-chain Interaction Risks", severity := .critical,
      risk_description := lit "Unsafe cross-chain message handling",
      recommendation := lit "Implement proper message verification and handle edge cases" }),
   ("DoS Risk",
    { name := lit "Denial of Service Risk", severity := .high,
      risk_description := lit "Potential for denial-of-service attacks due to unbounded loops or resource consumption.",
      recommendation := lit "Implement input validation and resource limits to prevent DoS attacks." }),
   ("Input Validation Risk",
    { name := lit "Insufficient Input Validation", severity := .high,
      risk_description := lit "Lack of input validation can lead to unexpected behavior or vulnerabilities.",
      recommendation := lit "Implement robust input validation to sanitize and check all inputs before processing." }),
   ("Timestamp Dependence",
    { name := lit "Timestamp Dependence Vulnerability", severity := .medium,
      risk_description := lit "Contract logic relies on block timestamps, which can be manipulated by miners.",
      recommendation := lit "Avoid using block timestamps for critical logic; use timelocks or other mechanisms for predictable timing." })]

/-- First occurrence per `vuln_key`: keep each vulnerability whose key has
not appeared earlier in the list, preserving order. -/
def firstOccByKey : List Vulnerability → List Vulnerability
  | [] => []
  | v :: vs =>
    v :: firstOccByKey (vs.filter fun w => !(vuln_key w == vuln_key v))
termination_by l => l.length
decreasing_by
  simp only [List.length_cons]
  exact Nat.lt_succ_of_le (List.length_filter_le _ _)

/-- Deduplication as claim C4 words it: decided per bucket, independently
of the other buckets. -/
def dedup_per_bucket_spec (result : AuditResult) : AuditResult :=
  ⟨firstOccByKey result.critical_vulnerabilities,
   firstOccByKey result.high_vulnerabilities,
   firstOccByKey result.medium_vulnerabilities,
   firstOccByKey result.low_vulnerabilities⟩

/-- Sort lexicographically and drop equal adjacent repeats. -/
def sort_dedup (l : List (List Char)) : List (List Char) :=
  dedupAdj (l.mergeSort lexLe)

/-- The recommendation sequence that `generate_action_items` actually
renders: per severity class (critical, then high, then medium — low never
contributes), the class's recommendations sorted lexicographically with
exact repeats collapsed. -/
def action_recs_spec (result : AuditResult) : List (List Char) :=
  sort_dedup (result.critical_vulnerabilities.map (·.recommendation)) ++
  sort_dedup (result.high_vulnerabilities.map (·.recommendation)) ++
  sort_dedup (result.medium_vulnerabilities.map (·.recommendation))

/-- Render one bullet line per action recommendation. -/
def render_actions (recs : List (List Char)) : List Char :=
  (recs.map fun r => lit "• " ++ r ++ lit "\n").flatten

/-- The action list claim C5 describes: one action per unique
(deduplicated) vulnerability including Low-severity ones, ordered
Critical → High → Medium → Low, each the recommendation unchanged. -/
def claim_action_recs (result : AuditResult) : List (List Char) :=
  let k := report_kept result
  (k.critical_vulnerabilities ++ k.high_vulnerabilities ++
   k.medium_vulnerabilities ++ k.low_vulnerabilities).map (·.recommendation)

/-- A vulnerability appearing (same name and recommendation) at two
severities, for exercising the cross-bucket dedup. -/
def c4_v1 : Vulnerability :=
  ⟨lit "Duplicated Finding", .critical, lit "critical variant", lit "apply the fix"⟩

/-- The high-severity twin of `c4_v1` (same dedup key). -/
def c4_v2 : Vulnerability :=
  ⟨lit "Duplicated Finding", .high, lit "high variant", lit "apply the fix"⟩

/-- A result whose critical and high buckets share one dedup key. -/
def c4_result : AuditResult := ⟨[c4_v1], [c4_v2], [], []⟩

/-- A single Low-severity finding. -/
def c5_low : Vulnerability :=
  ⟨lit "Low Issue", .low, lit "minor risk", lit "Fix the low issue"⟩

/-- A result with only a Low-severity finding. -/
def c5_result : AuditResult := ⟨[], [], [], [c5_low]⟩

/-- Content carrying a public function together with a msg.sender owner
check — the shape whose finding claim C9 says disappears. -/
def c9_content : List Char :=
  lit "pub fn withdraw() requires require!(msg.sender == owner)"

/-- Content that is valid in neither grammar yet matches rule patterns. -/
def c6_content : List Char := lit "pub fn f( @@"

/-- First cache-collision content: 100 identical bytes then `X`. -/
def c8_w1 : List Char := List.replicate 100 'a' ++ lit "X"

/-- Second cache-collision content: same 100-byte head then `Y`. -/
def c8_w2 : List Char := List.replicate 100 'a' ++ lit "Y"

/-- Demo rule A for runner witnesses: always finds one high issue. -/
def rule_a : Rule :=
  ⟨"A", fun _ => .ok [⟨lit "IssueA", .high, lit "a", lit "fix a"⟩]⟩

/-- Demo rule B for runner witnesses: always finds one low issue. -/
def rule_b : Rule :=
  ⟨"B", fun _ => .ok [⟨lit "IssueB", .low, lit "b", lit "fix b"⟩]⟩

/-- Demo rule C for runner witnesses: finds nothing. -/
def rule_c : Rule := ⟨"C", fun _ => .ok []⟩

/-- Demo failing rule for the rule-isolation witness. -/
def rule_bad : Rule := ⟨"Bad", fun _ => .error "regex compilation failed"⟩

/-! ### Claim C3: risk score -/

/-- The embedded `f64::min` is the mathematical minimum. -/
theorem fmin_eq_min (a b : ℚ) : fmin a b = min a b := by
  by_cases h : a ≤ b
  · rw [fmin, if_pos h, min_eq_left h]
  · rw [fmin, if_neg h, min_eq_right (le_of_not_le h)]

/-- Claim C3: for every AuditResult, the computed risk score equals
(critical×10 + high×7 + medium×4 + low×1) divided by 3 and clamped to the
closed interval [0,10]; in particular 0 ≤ risk_score ≤ 10. -/
theorem risk_score_clamped (r : AuditResult) :
    calculate_risk_score r =
      max 0 (min (((r.critical_vulnerabilities.length : ℚ) * 10 +
        (r.high_vulnerabilities.length : ℚ) * 7 +
        (r.medium_vulnerabilities.length : ℚ) * 4 +
        (r.low_vulnerabilities.length : ℚ) * 1) / 3) 10) ∧
    0 ≤ calculate_risk_score r ∧ calculate_risk_score r ≤ 10 := by
  have he : calculate_risk_score r =
      min (((r.critical_vulnerabilities.length : ℚ) * 10 +
        (r.high_vulnerabilities.length : ℚ) * 7 +
        (r.medium_vulnerabilities.length : ℚ) * 4 +
        (r.low_vulnerabilities.length : ℚ) * 1) / 3) 10 := fmin_eq_min _ _
  have hnn : (0 : ℚ) ≤ ((r.critical_vulnerabilities.length : ℚ) * 10 +
      (r.high_vulnerabilities.length : ℚ) * 7 +
      (r.medium_vulnerabilities.length : ℚ) * 4 +
      (r.low_vulnerabilities.length : ℚ) * 1) / 3 := by positivity
  refine ⟨?_, ?_, ?_⟩
  · rw [he, max_eq_right (le_min hnn (by norm_num))]
  · rw [he]; exact le_min hnn (by norm_num)
  · rw [he]; exact min_le_right _ _

/-! ### Claim C1: the pattern weight table -/

/-- Claim C1 (code-bug evidence): on the input `struct` the detector
computes the single pattern (State Packing, 0.9); the weight lookup key is
the lowercased display name `state packing`, which misses the table (the
configured key is `state_packing`, weight 1.3), so the configured weight is
never applied — had it been, the final confidence would have been
min(0.9 × 1.3, 1) = 1, not 0.9. -/
theorem weight_table_never_applied :
    (analyze_semantic_patterns [] (lit "struct")).1 = [("State Packing", 9/10)] ∧
    to_lowercase "State Packing" = "state packing" ∧
    pattern_weights.lookup (to_lowercase "State Packing") = none ∧
    pattern_weights.lookup "state_packing" = some (13/10) ∧
    fmin ((9/10 : ℚ) * (13/10)) 1 = 1 ∧ (9/10 : ℚ) ≠ 1 :=
  ⟨by with_unfolding_all decide, by decide, by decide,
   by with_unfolding_all decide, by with_unfolding_all decide, by norm_num⟩

/-! ### Claim C2: threshold-to-vulnerability translation -/

/-- Claim C2 counterexample: on the input `calldata` the detector finds two
patterns, both with final confidence 0.9 > 0.80, yet `check` emits only one
vulnerability — the pattern "Calldata Optimization" has no arm in the
mapping and is silently discarded. -/
theorem threshold_pattern_dropped :
    (analyze_semantic_patterns [] (lit "calldata")).1 =
      [("Reentrancy Risk", 9/10), ("Calldata Optimization", 9/10)] ∧
    learning_threshold < 9/10 ∧
    ((detector_check [] (lit "calldata")).1.map Vulnerability.name) =
      [lit "Reentrancy Vulnerability"] :=
  ⟨by with_unfolding_all decide, by with_unfolding_all decide,
   by with_unfolding_all decide⟩

/-- Association lookup skips a row whose key differs. -/
theorem lookup_cons_ne {β : Type} (k a : String) (v : β) (t : List (String × β))
    (h : ¬a = k) : List.lookup a ((k, v) :: t) = List.lookup a t := by
  simp [List.lookup, beq_eq_false_iff_ne.mpr h]

/-- The `check` match cascade agrees with association-table lookup in the
spec's fixed mapping table. -/
theorem detector_translate_eq_lookup (p : String) :
    detector_translate p = vulnerability_mapping_table.lookup p := by
  rw [detector_translate.eq_def]
  split
  all_goals first
  | rfl
  | (rename_i h1 h2 h3 h4 h5 h6 h7 h8 h9 h10 h11 h12
     unfold vulnerability_mapping_table
     rw [lookup_cons_ne _ _ _ _ h1, lookup_cons_ne _ _ _ _ h2,
         lookup_cons_ne _ _ _ _ h3, lookup_cons_ne _ _ _ _ h4,
         lookup_cons_ne _ _ _ _ h5, lookup_cons_ne _ _ _ _ h6,
         lookup_cons_ne _ _ _ _ h7, lookup_cons_ne _ _ _ _ h8,
         lookup_cons_ne _ _ _ _ h9, lookup_cons_ne _ _ _ _ h10,
         lookup_cons_ne _ _ _ _ h11, lookup_cons_ne _ _ _ _ h12]
     rfl)

/-- Claim C2 (amended): the detector's `check` emits exactly the
translations, through the fixed mapping table, of those analyzed patterns
whose final confidence strictly exceeds the 0.80 threshold *and* whose
category name has a row in the table; above-threshold patterns without a
row (Calldata Optimization, Stylus SDK Usage, Precompile Usage,
WASM Optimization) and at-or-below-threshold patterns yield nothing. -/
theorem detector_check_via_table (content : List Char) :
    (detector_check [] content).1 =
      (analyze_semantic_patterns [] content).1.filterMap
        (fun pc => if learning_threshold < pc.2 then
          vulnerability_mapping_table.lookup pc.1 else none) := by
  have hfun : (fun pc : String × ℚ =>
      if learning_threshold < pc.2 then detector_translate pc.1 else none) =
      (fun pc : String × ℚ => if learning_threshold < pc.2 then
        vulnerability_mapping_table.lookup pc.1 else none) := by
    funext pc
    rw [detector_translate_eq_lookup]
  show (analyze_semantic_patterns [] content).1.filterMap _ = _
  rw [hfun]

/-! ### Claim C8: the detector cache keyed on a content prefix -/

/-- Claim C8: two successive `check`/`analyze_semantic_patterns` calls on
one detector whose inputs agree on the first 100 bytes but differ beyond
them share the cache entry: the second call returns the analysis of the
first input. -/
theorem detector_cache_collision (c₁ c₂ : List Char)
    (h₁ : 100 ≤ c₁.length) (h₂ : 100 ≤ c₂.length)
    (hpre : c₁.take 100 = c₂.take 100) (hne : c₁ ≠ c₂) :
    (analyze_semantic_patterns (analyze_semantic_patterns [] c₁).2 c₂).1 =
      (analyze_semantic_patterns [] c₁).1 := by
  have hk : cache_key c₂ = cache_key c₁ := by
    unfold cache_key; rw [if_pos h₁, if_pos h₂, hpre]
  have hhit : ∀ (cache : DetectorCache) (c : List Char) ps,
      cache.lookup (cache_key c) = some ps →
      (analyze_semantic_patterns cache c).1 = ps := by
    intro cache c ps h
    simp only [analyze_semantic_patterns]
    rw [h]
  apply hhit
  have h2 : (analyze_semantic_patterns [] c₁).2 =
      [(cache_key c₁, (analyze_semantic_patterns [] c₁).1)] := rfl
  rw [h2, hk]
  simp [List.lookup]

/-- Witness for C8 at two concrete 101-byte contents that agree on their
first 100 bytes and differ at the last. -/
theorem detector_cache_collision_witness :
    (100 ≤ c8_w1.length ∧ 100 ≤ c8_w2.length ∧
      c8_w1.take 100 = c8_w2.take 100 ∧ c8_w1 ≠ c8_w2) ∧
    (analyze_semantic_patterns (analyze_semantic_patterns [] c8_w1).2 c8_w2).1 =
      (analyze_semantic_patterns [] c8_w1).1 :=
  ⟨⟨by decide, by decide, by decide, by decide⟩,
   detector_cache_collision c8_w1 c8_w2 (by decide) (by decide) (by decide) (by decide)⟩

/-! ### Claim C4: deduplication -/

/-- One dedup pass over a concatenation is the first pass followed by a
second pass starting from the first pass's seen set. -/
theorem dedup_pass_append (seen : List (List Char)) (l₁ l₂ : List Vulnerability) :
    dedup_pass seen (l₁ ++ l₂) =
      ((dedup_pass seen l₁).1 ++ (dedup_pass (dedup_pass seen l₁).2 l₂).1,
       (dedup_pass (dedup_pass seen l₁).2 l₂).2) := by
  induction l₁ generalizing seen with
  | nil => simp [dedup_pass]
  | cons v vs ih =>
    by_cases h : vuln_key v ∈ seen
    · simp [dedup_pass, h, ih]
    · simp [dedup_pass, h, ih]

/-- The vulnerabilities kept by one dedup pass are the first occurrences
per key among those whose key is not already in the seen set. -/
theorem dedup_pass_fst (seen : List (List Char)) (l : List Vulnerability) :
    (dedup_pass seen l).1 =
      firstOccByKey (l.filter fun v => !(seen.contains (vuln_key v))) := by
  induction l generalizing seen with
  | nil => simp [dedup_pass, firstOccByKey]
  | cons v vs ih =>
    by_cases h : vuln_key v ∈ seen
    · simp [dedup_pass, h, List.filter_cons, ih]
    · have h' : ¬(seen.contains (vuln_key v) = true) := by simpa using h
      simp only [dedup_pass]
      rw [if_neg h']
      simp only [List.filter_cons]
      rw [show (!seen.contains (vuln_key v)) = true from by simpa using h]
      simp only [if_true]
      rw [firstOccByKey, List.filter_filter]
      congr 1
      rw [ih]
      congr 1
      apply List.filter_congr
      intro w _
      simp [List.contains_cons, Bool.not_or, beq_eq_decide]
      exact congrArg₂ (fun a b => (!a && !b)) (decide_eq_decide.mpr Iff.rfl) rfl

/-- Claim C4 (amended): report deduplication by the colon-joined key
`name:recommendation` is global, not per bucket — one seen set is threaded
through the four buckets in order Critical → High → Medium → Low, so the
concatenation of the kept buckets equals the first occurrence of each key
in the concatenation of the original buckets, preserving per-bucket
insertion order otherwise. -/
theorem report_dedup_global (result : AuditResult) :
    (report_kept result).critical_vulnerabilities ++
    ((report_kept result).high_vulnerabilities ++
     ((report_kept result).medium_vulnerabilities ++
      (report_kept result).low_vulnerabilities)) =
    firstOccByKey (result.critical_vulnerabilities ++
      (result.high_vulnerabilities ++
       (result.medium_vulnerabilities ++ result.low_vulnerabilities))) := by
  have hkey : ∀ L : List Vulnerability, firstOccByKey L = (dedup_pass [] L).1 := by
    intro L
    rw [dedup_pass_fst]
    congr 1
    simp [List.contains]
  rw [hkey]
  rw [dedup_pass_append [] result.critical_vulnerabilities]
  rw [dedup_pass_append _ result.high_vulnerabilities]
  rw [dedup_pass_append _ result.medium_vulnerabilities]
  rfl

/-- Claim C4 counterexample: a result whose critical and high buckets hold
vulnerabilities with the same (name, recommendation) key.  The code drops
the high-bucket copy because the seen set is shared across buckets, while
per-bucket deduplication as the claim states it would keep it. -/
theorem dedup_not_per_bucket :
    report_kept c4_result = ⟨[c4_v1], [], [], []⟩ ∧
    dedup_per_bucket_spec c4_result = ⟨[c4_v1], [c4_v2], [], []⟩ ∧
    report_kept c4_result ≠ dedup_per_bucket_spec c4_result := by
  have h1 : report_kept c4_result = ⟨[c4_v1], [], [], []⟩ := by decide
  have h2 : dedup_per_bucket_spec c4_result = ⟨[c4_v1], [c4_v2], [], []⟩ := by
    simp [dedup_per_bucket_spec, firstOccByKey, c4_result, c4_v1, c4_v2]
  exact ⟨h1, h2, by rw [h1, h2]; decide⟩

/-- `lexLe` is total. -/
theorem lexLe_total (a b : List Char) : (lexLe a b || lexLe b a) = true := by
  induction a generalizing b with
  | nil => simp [lexLe]
  | cons x xs ih =>
    cases b with
    | nil => simp [lexLe]
    | cons y ys =>
      rcases lt_trichotomy x y with h | h | h
      · simp [lexLe, h]
      · subst h
        simpa [lexLe, lt_irrefl] using ih ys
      · simp [lexLe, h, asymm h]

/-- `lexLe` is transitive. -/
theorem lexLe_trans (a b c : List Char) (hab : lexLe a b = true)
    (hbc : lexLe b c = true) : lexLe a c = true := by
  induction a generalizing b c with
  | nil => simp [lexLe]
  | cons x xs ih =>
    cases b with
    | nil => simp [lexLe] at hab
    | cons y ys =>
      cases c with
      | nil => simp [lexLe] at hbc
      | cons z zs =>
        rcases lt_trichotomy x y with hxy | hxy | hxy
        · rcases lt_trichotomy y z with hyz | hyz | hyz
          · simp [lexLe, lt_trans hxy hyz]
          · subst hyz; simp [lexLe, hxy]
          · simp [lexLe, asymm hyz, hyz] at hbc
        · subst hxy
          simp only [lexLe] at hab
          rw [if_neg (lt_irrefl x), if_neg (lt_irrefl x)] at hab
          rcases lt_trichotomy x z with hxz | hxz | hxz
          · simp [lexLe, hxz]
          · subst hxz
            simp only [lexLe] at hbc ⊢
            rw [if_neg (lt_irrefl x), if_neg (lt_irrefl x)] at hbc ⊢
            exact ih ys zs hab hbc
          · simp [lexLe, asymm hxz, hxz] at hbc
        · simp [lexLe, asymm hxy, hxy] at hab

/-- `lexLe` is antisymmetric. -/
theorem lexLe_antisymm (a b : List Char) (h1 : lexLe a b = true)
    (h2 : lexLe b a = true) : a = b := by
  induction a generalizing b with
  | nil =>
    cases b with
    | nil => rfl
    | cons y ys => simp [lexLe] at h2
  | cons x xs ih =>
    cases b with
    | nil => simp [lexLe] at h1
    | cons y ys =>
      rcases lt_trichotomy x y with hxy | hxy | hxy
      · simp [lexLe, asymm hxy, hxy] at h2
      · subst hxy
        simp only [lexLe] at h1 h2
        rw [if_neg (lt_irrefl x), if_neg (lt_irrefl x)] at h1 h2
        rw [ih ys h1 h2]
      · simp [lexLe, asymm hxy, hxy] at h1

/-- Comparing under a common prefix compares the suffixes. -/
theorem lexLe_append_same (p x y : List Char) :
    lexLe (p ++ x) (p ++ y) = lexLe x y := by
  induction p with
  | nil => rfl
  | cons a p ih =>
    simp only [List.cons_append, lexLe]
    rw [if_neg (lt_irrefl a), if_neg (lt_irrefl a)]
    exact ih

/-- A strictly smaller head decides the lexicographic comparison. -/
theorem lexLe_cons_of_lt {a b : Char} (h : a < b) (x y : List Char) :
    lexLe (a :: x) (b :: y) = true := by
  simp [lexLe, h]

/-- `mergeSort` under `lexLe` sorts. -/
theorem lexLe_sorted_mergeSort (l : List (List Char)) :
    List.Sorted (fun x y => lexLe x y = true) (l.mergeSort lexLe) :=
  List.sorted_mergeSort lexLe_trans lexLe_total l

/-- Sorting a concatenation whose left part is bounded by its right
part sorts the parts separately. -/
theorem mergeSort_append (A B : List (List Char))
    (hAB : ∀ a ∈ A, ∀ b ∈ B, lexLe a b = true) :
    (A ++ B).mergeSort lexLe = A.mergeSort lexLe ++ B.mergeSort lexLe := by
  haveI : IsAntisymm (List Char) (fun x y => lexLe x y = true) := ⟨lexLe_antisymm⟩
  refine List.eq_of_perm_of_sorted ?_ (lexLe_sorted_mergeSort _) ?_
  · exact (List.mergeSort_perm _ _).trans
      (((List.mergeSort_perm A _).append (List.mergeSort_perm B _)).symm)
  · exact List.pairwise_append.mpr ⟨lexLe_sorted_mergeSort _, lexLe_sorted_mergeSort _,
      fun a ha b hb => hAB a ((List.mergeSort_perm A _).subset ha)
        b ((List.mergeSort_perm B _).subset hb)⟩

/-- Sorting commutes with prefixing every element by a common string. -/
theorem mergeSort_map_pre (p : List Char) (l : List (List Char)) :
    (l.map (fun x => p ++ x)).mergeSort lexLe =
      (l.mergeSort lexLe).map (fun x => p ++ x) := by
  haveI : IsAntisymm (List Char) (fun x y => lexLe x y = true) := ⟨lexLe_antisymm⟩
  refine List.eq_of_perm_of_sorted ?_ (lexLe_sorted_mergeSort _) ?_
  · exact (List.mergeSort_perm _ _).trans (((List.mergeSort_perm l _).map _).symm)
  · exact List.pairwise_map.mpr
      ((lexLe_sorted_mergeSort l).imp (fun h => by rwa [lexLe_append_same]))

/-- Adjacent dedup splits over a concatenation of parts that share no
element across the boundary. -/
theorem dedupAdj_append {α : Type} [DecidableEq α] (X Y : List α)
    (h : ∀ x ∈ X, ∀ y ∈ Y, x ≠ y) :
    dedupAdj (X ++ Y) = dedupAdj X ++ dedupAdj Y := by
  induction X with
  | nil => simp [dedupAdj]
  | cons a X ih =>
    cases X with
    | nil =>
      cases Y with
      | nil => simp [dedupAdj]
      | cons y ys =>
        have hay : a ≠ y := h a (by simp) y (by simp)
        simp [dedupAdj, hay]
    | cons b X' =>
      have ih' := ih (fun x hx y hy => h x (by simp [hx]) y hy)
      rw [List.cons_append] at ih'
      by_cases hab : a = b <;> simp [List.cons_append, dedupAdj, hab, ih']

/-- Adjacent dedup commutes with an injective map. -/
theorem dedupAdj_map_inj {α β : Type} [DecidableEq α] [DecidableEq β]
    (f : α → β) (hf : Function.Injective f) (l : List α) :
    dedupAdj (l.map f) = (dedupAdj l).map f := by
  induction l with
  | nil => rfl
  | cons a l ih =>
    cases l with
    | nil => rfl
    | cons b t =>
      by_cases hab : a = b
      · subst hab
        simpa [dedupAdj] using ih
      · have hfab : ¬f a = f b := fun hh => hab (hf hh)
        simpa [dedupAdj, hab, hfab] using ih

/-- Core shape of `generate_action_items`: prefixing with distinct
priority digits, sorting, deduplicating and stripping the digits again
equals per-class sort-and-dedup of the raw recommendations. -/
theorem action_items_core (C H M : List (List Char)) :
    ((dedupAdj ((C.map (fun x => lit "1. " ++ x) ++
        (H.map (fun x => lit "2. " ++ x) ++ M.map (fun x => lit "3. " ++ x))).mergeSort
          lexLe)).map (fun action => lit "• " ++ action.drop 3 ++ lit "\n")).flatten =
    ((sort_dedup C ++ (sort_dedup H ++ sort_dedup M)).map
        (fun r => lit "• " ++ r ++ lit "\n")).flatten := by
  have cross23 : ∀ a ∈ H.map (fun x => lit "2. " ++ x),
      ∀ b ∈ M.map (fun x => lit "3. " ++ x), lexLe a b = true := by
    intro a ha b hb
    obtain ⟨xa, -, rfl⟩ := List.mem_map.mp ha
    obtain ⟨xb, -, rfl⟩ := List.mem_map.mp hb
    exact lexLe_cons_of_lt (by decide) _ _
  have cross1 : ∀ a ∈ C.map (fun x => lit "1. " ++ x),
      ∀ b ∈ H.map (fun x => lit "2. " ++ x) ++ M.map (fun x => lit "3. " ++ x),
      lexLe a b = true := by
    intro a ha b hb
    obtain ⟨xa, -, rfl⟩ := List.mem_map.mp ha
    rcases List.mem_append.mp hb with hb | hb
    · obtain ⟨xb, -, rfl⟩ := List.mem_map.mp hb
      exact lexLe_cons_of_lt (by decide) _ _
    · obtain ⟨xb, -, rfl⟩ := List.mem_map.mp hb
      exact lexLe_cons_of_lt (by decide) _ _
  rw [mergeSort_append _ _ cross1, mergeSort_append _ _ cross23]
  rw [mergeSort_map_pre, mergeSort_map_pre, mergeSort_map_pre]
  have hne23 : ∀ x ∈ (H.mergeSort lexLe).map (fun x => lit "2. " ++ x),
      ∀ y ∈ (M.mergeSort lexLe).map (fun x => lit "3. " ++ x), x ≠ y := by
    intro x hx y hy
    obtain ⟨xa, -, rfl⟩ := List.mem_map.mp hx
    obtain ⟨xb, -, rfl⟩ := List.mem_map.mp hy
    intro hxy
    have hc : ('2' : Char) = '3' := congrArg List.headI hxy
    exact absurd hc (by decide)
  have hne1 : ∀ x ∈ (C.mergeSort lexLe).map (fun x => lit "1. " ++ x),
      ∀ y ∈ (H.mergeSort lexLe).map (fun x => lit "2. " ++ x) ++
        (M.mergeSort lexLe).map (fun x => lit "3. " ++ x), x ≠ y := by
    intro x hx y hy
    obtain ⟨xa, -, rfl⟩ := List.mem_map.mp hx
    rcases List.mem_append.mp hy with hy | hy
    · obtain ⟨xb, -, rfl⟩ := List.mem_map.mp hy
      intro hxy
      have hc : ('1' : Char) = '2' := congrArg List.headI hxy
      exact absurd hc (by decide)
    · obtain ⟨xb, -, rfl⟩ := List.mem_map.mp hy
      intro hxy
      have hc : ('1' : Char) = '3' := congrArg List.headI hxy
      exact absurd hc (by decide)
  rw [dedupAdj_append _ _ hne1, dedupAdj_append _ _ hne23]
  rw [dedupAdj_map_inj _ (List.append_right_injective _),
      dedupAdj_map_inj _ (List.append_right_injective _),
      dedupAdj_map_inj _ (List.append_right_injective _)]
  simp only [sort_dedup, List.map_append, List.map_map]
  have s1 : ∀ x : List Char,
      lit "• " ++ (lit "1. " ++ x).drop 3 ++ lit "\n" = lit "• " ++ x ++ lit "\n" := by
    intro x
    rw [show (3 : ℕ) = (lit "1. ").length from rfl, List.drop_left]
  have s2 : ∀ x : List Char,
      lit "• " ++ (lit "2. " ++ x).drop 3 ++ lit "\n" = lit "• " ++ x ++ lit "\n" := by
    intro x
    rw [show (3 : ℕ) = (lit "2. ").length from rfl, List.drop_left]
  have s3 : ∀ x : List Char,
      lit "• " ++ (lit "3. " ++ x).drop 3 ++ lit "\n" = lit "• " ++ x ++ lit "\n" := by
    intro x
    rw [show (3 : ℕ) = (lit "3. ").length from rfl, List.drop_left]
  have m1 : List.map ((fun action => lit "• " ++ List.drop 3 action ++ lit "\n") ∘
      fun t => lit "1. " ++ t) (dedupAdj (C.mergeSort lexLe)) =
      List.map (fun r => lit "• " ++ r ++ lit "\n") (dedupAdj (C.mergeSort lexLe)) :=
    List.map_congr_left (fun a _ => s1 a)
  have m2 : List.map ((fun action => lit "• " ++ List.drop 3 action ++ lit "\n") ∘
      fun t => lit "2. " ++ t) (dedupAdj (H.mergeSort lexLe)) =
      List.map (fun r => lit "• " ++ r ++ lit "\n") (dedupAdj (H.mergeSort lexLe)) :=
    List.map_congr_left (fun a _ => s2 a)
  have m3 : List.map ((fun action => lit "• " ++ List.drop 3 action ++ lit "\n") ∘
      fun t => lit "3. " ++ t) (dedupAdj (M.mergeSort lexLe)) =
      List.map (fun r => lit "• " ++ r ++ lit "\n") (dedupAdj (M.mergeSort lexLe)) :=
    List.map_congr_left (fun a _ => s3 a)
  exact congrArg List.flatten
    (congrArg₂ (· ++ ·) m1 (congrArg₂ (· ++ ·) m2 m3))

/-- Claim C5 (amended): the recommended-actions list consists of the
recommendations of the Critical, High and Medium buckets only — Low
vulnerabilities contribute nothing; within each severity class the
recommendations are sorted lexicographically and deduplicated by the
exact recommendation string (not by the (name, recommendation) finding
key); the classes appear in order Critical → High → Medium; each action
is the recommendation itself with a bullet prefix. -/
theorem action_items_characterization (result : AuditResult) :
    generate_action_items result = render_actions (action_recs_spec result) := by
  have e1 : result.critical_vulnerabilities.map (fun v => lit "1. " ++ v.recommendation) =
      (result.critical_vulnerabilities.map (fun v => v.recommendation)).map
        (fun x => lit "1. " ++ x) := (List.map_map _ _ _).symm
  have e2 : result.high_vulnerabilities.map (fun v => lit "2. " ++ v.recommendation) =
      (result.high_vulnerabilities.map (fun v => v.recommendation)).map
        (fun x => lit "2. " ++ x) := (List.map_map _ _ _).symm
  have e3 : result.medium_vulnerabilities.map (fun v => lit "3. " ++ v.recommendation) =
      (result.medium_vulnerabilities.map (fun v => v.recommendation)).map
        (fun x => lit "3. " ++ x) := (List.map_map _ _ _).symm
  simp only [generate_action_items, render_actions, action_recs_spec]
  rw [e1, e2, e3]
  simp only [List.append_assoc]
  exact action_items_core _ _ _

/-- Claim C5 counterexample: a result holding only one Low-severity
finding renders an empty action list, while the claim (one action per
unique deduplicated vulnerability, including Low) demands one action. -/
theorem low_actions_missing :
    generate_action_items c5_result = [] ∧
    claim_action_recs c5_result = [lit "Fix the low issue"] := by
  constructor
  · simp [generate_action_items, c5_result, List.mergeSort_nil, dedupAdj]
  · decide
/-! ### The rule runner: claims C7, C10, C6, C9 -/

/-- A satisfying element yields a found index whose element satisfies the
predicate. -/
theorem findIdxO_found {α : Type} (p : α → Bool) (l : List α) (x : α)
    (hx : x ∈ l) (hp : p x = true) :
    ∃ i y, findIdxO p l = some i ∧ l[i]? = some y ∧ p y = true := by
  induction l with
  | nil => cases hx
  | cons a t ih =>
    by_cases ha : p a = true
    · exact ⟨0, a, by simp [findIdxO, ha], by simp, ha⟩
    · rcases List.mem_cons.mp hx with rfl | hx'
      · exact absurd hp ha
      · obtain ⟨i, y, h1, h2, h3⟩ := ih hx'
        refine ⟨i + 1, y, ?_, ?_, h3⟩
        · simp [findIdxO, ha, h1]
        · simpa using h2

/-- `swap_remove` plus re-appending the removed element permutes the
collection. -/
theorem swap_remove_perm {α : Type} (l : List α) (i : Nat) (x : α)
    (hx : l[i]? = some x) : (swap_remove l i ++ [x]).Perm l := by
  induction l generalizing i with
  | nil => simp at hx
  | cons a t ih =>
    cases i with
    | zero =>
      have hax : a = x := by simpa using hx
      subst hax
      cases t with
      | nil => simp [swap_remove]
      | cons b t' =>
        have hne : (b :: t') ≠ [] := by simp
        have hy : (b :: t').getLast? = some ((b :: t').getLast hne) :=
          List.getLast?_eq_getLast _ hne
        have hsw : swap_remove (a :: b :: t') 0 =
            (b :: t').getLast hne :: (b :: t').dropLast := by
          simp [swap_remove, List.getLast?_cons_cons, hy, List.dropLast_cons₂]
        rw [hsw]
        refine ((List.Perm.cons _ (List.perm_append_singleton _ _)).trans ?_)
        refine (List.Perm.swap _ _ _).trans ?_
        refine ((List.Perm.cons _ (List.perm_append_singleton _ _).symm).trans ?_)
        rw [List.dropLast_append_getLast hne]
    | succ i =>
      cases t with
      | nil => simp at hx
      | cons b t' =>
        have hx' : (b :: t')[i]? = some x := by simpa using hx
        have hne : (b :: t') ≠ [] := by simp
        have hy : (b :: t').getLast? = some ((b :: t').getLast hne) :=
          List.getLast?_eq_getLast _ hne
        have hsw : swap_remove (a :: b :: t') (i + 1) =
            a :: swap_remove (b :: t') i := by
          simp [swap_remove, List.getLast?_cons_cons, hy, List.dropLast_cons₂,
            List.set_cons_succ]
        rw [hsw]
        exact List.Perm.cons a (ih i hx')

/-- A successful run of the rule loop returns a permutation of the rule
collection it started from. -/
theorem run_rules_perm (content : List Char) :
    ∀ (ns : List String) (rules : List Rule) (acc : AuditResult)
      (fin : List Rule) (res : AuditResult),
      run_rules content ns rules acc = some (fin, res) → fin.Perm rules := by
  intro ns
  induction ns with
  | nil =>
    intro rules acc fin res h
    simp only [run_rules, Option.some.injEq, Prod.mk.injEq] at h
    exact h.1 ▸ List.Perm.refl _
  | cons n ns ih =>
    intro rules acc fin res h
    simp only [run_rules] at h
    split at h
    · exact absurd h (by simp)
    · rename_i i hf
      split at h
      · exact absurd h (by simp)
      · rename_i r hg
        exact (ih _ _ _ _ h).trans (swap_remove_perm rules i r hg)

/-- With pairwise-distinct rule names, the rule loop succeeds and its
result is the in-order fold of every rule's contribution. -/
theorem run_rules_eval (content : List Char) (all : List Rule)
    (hnd : (all.map (fun r => r.name)).Nodup) :
    ∀ (rs : List Rule) (cur : List Rule) (acc : AuditResult),
      cur.Perm all → (∀ r ∈ rs, r ∈ all) →
      ∃ fin, run_rules content (rs.map (fun r => r.name)) cur acc =
          some (fin, rs.foldl
            (fun a r => push_vulns a (rule_vulns (r.check content))) acc) ∧
        fin.Perm all := by
  intro rs
  induction rs with
  | nil => intro cur acc hperm _; exact ⟨cur, rfl, hperm⟩
  | cons r rs ih =>
    intro cur acc hperm hmem
    have hr_all : r ∈ all := hmem r (List.mem_cons_self _ _)
    have hr_cur : r ∈ cur := hperm.mem_iff.mpr hr_all
    obtain ⟨i, y, hfind, hget, hpy⟩ :=
      findIdxO_found (fun q => q.name == r.name) cur r hr_cur (by simp)
    have hy_lt : ∃ hlt : i < cur.length, cur[i] = y :=
      List.getElem?_eq_some_iff.mp hget
    have hy_cur : y ∈ cur := by
      obtain ⟨hlt, he⟩ := hy_lt
      rw [← he]
      exact List.getElem_mem hlt
    have hy_all : y ∈ all := hperm.mem_iff.mp hy_cur
    have hyname : y.name = r.name := by simpa using hpy
    have hyr : y = r := List.inj_on_of_nodup_map hnd hy_all hr_all hyname
    subst hyr
    have hperm' : (swap_remove cur i ++ [y]).Perm all :=
      (swap_remove_perm cur i y hget).trans hperm
    obtain ⟨fin, hrun, hfin⟩ := ih (swap_remove cur i ++ [y])
      (push_vulns acc (rule_vulns (y.check content))) hperm'
      (fun q hq => hmem q (List.mem_cons_of_mem _ hq))
    refine ⟨fin, ?_, hfin⟩
    simp only [List.map_cons, run_rules, hfind, hget, List.foldl_cons]
    exact hrun

/-- Claim C7: if exactly one registered rule's `check` errors (all rule
names distinct, every other rule succeeding), the audit buckets equal
those of a run with that rule removed entirely — the failing rule is
skipped and contributes nothing.  (The log line itself is a side effect
outside the model.) -/
theorem rule_isolation (content : List Char) (l₁ l₂ : List Rule) (r : Rule) (e : String)
    (hnd : ((l₁ ++ r :: l₂).map (fun q => q.name)).Nodup)
    (herr : r.check content = .error e)
    (hok : ∀ q ∈ l₁ ++ l₂, (q.check content).isOk = true) :
    (analyze (l₁ ++ r :: l₂) content).map Prod.snd =
      (analyze (l₁ ++ l₂) content).map Prod.snd := by
  have hnd' : ((l₁ ++ l₂).map (fun q => q.name)).Nodup :=
    List.Nodup.sublist (List.Sublist.map _
      ((List.sublist_cons_self r l₂).append_left l₁)) hnd
  obtain ⟨f1, h1, -⟩ := run_rules_eval content (l₁ ++ r :: l₂) hnd
    (l₁ ++ r :: l₂) (l₁ ++ r :: l₂) empty_result (List.Perm.refl _) (fun _ hh => hh)
  obtain ⟨f2, h2, -⟩ := run_rules_eval content (l₁ ++ l₂) hnd'
    (l₁ ++ l₂) (l₁ ++ l₂) empty_result (List.Perm.refl _) (fun _ hh => hh)
  unfold analyze
  rw [h1, h2]
  simp only [Option.map_some']
  congr 1
  rw [List.foldl_append, List.foldl_append, List.foldl_cons]
  congr 1
  rw [herr]
  rfl

/-- Witness for C7: a failing demo rule between two succeeding ones. -/
theorem rule_isolation_witness :
    ((([rule_a] ++ rule_bad :: [rule_b]).map (fun q => q.name)).Nodup ∧
      rule_bad.check (lit "x") = .error "regex compilation failed" ∧
      (∀ q ∈ [rule_a] ++ [rule_b], ((q.check (lit "x")).isOk = true))) ∧
    (analyze ([rule_a] ++ rule_bad :: [rule_b]) (lit "x")).map Prod.snd =
      (analyze ([rule_a] ++ [rule_b]) (lit "x")).map Prod.snd :=
  ⟨⟨by decide, rfl, by decide⟩,
   rule_isolation (lit "x") [rule_a] [rule_b] rule_bad "regex compilation failed"
     (by decide) rfl (by decide)⟩

/-- Claim C10: a successful `analyze` returns a rule collection carrying
exactly the same multiset of rule names as the input collection — each
rule is removed for its turn and pushed back, so nothing is lost or
duplicated, though order may change. -/
theorem analyze_preserves_rules (rules : List Rule) (content : List Char)
    (fin : List Rule) (res : AuditResult)
    (h : analyze rules content = some (fin, res)) :
    (fin.map (fun r => r.name)).Perm (rules.map (fun r => r.name)) :=
  (run_rules_perm content _ rules empty_result fin res h).map _

/-- Witness for C10: three demo rules end reordered `[B, A, C]`, a
permutation of the original `[A, B, C]`. -/
theorem analyze_preserves_rules_witness :
    (analyze [rule_a, rule_b, rule_c] (lit "x") =
      some ([rule_b, rule_a, rule_c],
        ⟨[], [⟨lit "IssueA", Severity.high, lit "a", lit "fix a"⟩], [],
         [⟨lit "IssueB", Severity.low, lit "b", lit "fix b"⟩]⟩)) ∧
    (([rule_b, rule_a, rule_c].map (fun r => r.name)).Perm
      ([rule_a, rule_b, rule_c].map (fun r => r.name))) := by
  have h : analyze [rule_a, rule_b, rule_c] (lit "x") =
      some ([rule_b, rule_a, rule_c],
        ⟨[], [⟨lit "IssueA", Severity.high, lit "a", lit "fix a"⟩], [],
         [⟨lit "IssueB", Severity.low, lit "b", lit "fix b"⟩]⟩) := rfl
  exact ⟨h, analyze_preserves_rules _ _ _ _ h⟩

/-- Claim C6 counterexample: `pub fn f( @@` is rejected by both grammars
(both parse outcomes `none` make `ParsedContract::new` fail), yet the
audit pipeline still runs every detection rule on it and produces
findings — the rule runner is reached on unparsed content. -/
theorem parse_gate_absent :
    @parsed_contract_new Unit Unit none none c6_content =
      .error (lit "Failed to parse contract as either Solidity or Rust") ∧
    (analyze create_default_rules c6_content).map
      (fun p => p.2.high_vulnerabilities.map (fun v => v.name)) =
      some [lit "Missing Access Control", lit "Missing Access Control"] :=
  ⟨rfl, by with_unfolding_all decide⟩

/-- Claim C6 (amended): `ParsedContract::new` fails with the parse error
when both grammars fail, and the full-report pipeline parses before its
analyzers run; but the audit command's rule runner operates on raw file
content without ever invoking the parser, so `analyze` succeeds on every
content, parseable or not. -/
theorem parse_failure_vs_audit_path :
    (∀ content : List Char, @parsed_contract_new Unit Unit none none content =
      .error (lit "Failed to parse contract as either Solidity or Rust")) ∧
    (∀ content : List Char, (analyze create_default_rules content).isSome = true) := by
  refine ⟨fun _ => rfl, fun content => ?_⟩
  obtain ⟨fin, h, -⟩ := run_rules_eval content create_default_rules (by decide)
    create_default_rules create_default_rules empty_result
    (List.Perm.refl _) (fun _ hh => hh)
  unfold analyze
  rw [h]
  rfl

/-- Claim C9 (amended): whenever the content contains `pub fn`, `public`
or `external`, the weighted detector emits a High "Missing Access
Control" vulnerability regardless of any owner check — its base
confidence 0.85 already exceeds the 0.80 threshold, so an owner check
removes only the boolean AccessControlRule's finding, not the
detector's. -/
theorem detector_always_flags_access (content : List Char)
    (h : (hasSub content "pub fn" || hasSub content "public" ||
          hasSub content "external") = true) :
    lit "Missing Access Control" ∈
      ((detector_check [] content).1.map (fun v => v.name)) := by
  have headlem : ∀ (k : ℚ) (rest : List (String × ℚ)),
      learning_threshold < fmin (k * 1) 1 →
      lit "Missing Access Control" ∈
        (((("Access Control Risk", k) :: rest).map (fun pc =>
            ((pc.1 : String),
              fmin (pc.2 * ((pattern_weights.lookup (to_lowercase pc.1)).getD 1)) 1))).filterMap
          (fun pc => if learning_threshold < pc.2 then detector_translate pc.1 else none)).map
            (fun v => v.name) := by
    intro k rest hk
    have hw : ((pattern_weights.lookup (to_lowercase "Access Control Risk")).getD 1)
        = 1 := by decide
    simp only [List.map_cons, List.filterMap_cons, hw]
    rw [if_pos hk]
    simp [detector_translate]
  have e : (detector_check [] content).1 =
      ((detect_security_patterns content ++ detect_l2_optimization_patterns content ++
        detect_stylus_specific_patterns content ++ detect_advanced_patterns content).map
          (fun pc => ((pc.1 : String),
            fmin (pc.2 * ((pattern_weights.lookup (to_lowercase pc.1)).getD 1)) 1))).filterMap
        (fun pc => if learning_threshold < pc.2 then detector_translate pc.1 else none) := rfl
  rw [e]
  simp only [detect_security_patterns]
  rw [if_pos h]
  simp only [List.cons_append, List.singleton_append, List.append_assoc]
  exact headlem _ _ (by split_ifs <;> rw [fmin_eq_min] <;>
    norm_num [learning_threshold, min_def])

/-- Witness for C9 at the content `public`. -/
theorem detector_always_flags_access_witness :
    ((hasSub (lit "public") "pub fn" || hasSub (lit "public") "public" ||
      hasSub (lit "public") "external") = true) ∧
    lit "Missing Access Control" ∈
      ((detector_check [] (lit "public")).1.map (fun v => v.name)) :=
  ⟨by decide, detector_always_flags_access (lit "public") (by decide)⟩

/-- Claim C9 counterexample: content with a public function and a
`require!(msg.sender` owner check.  The AccessControlRule no longer
reports missing access control, yet the full default-rule audit still
puts a High "Missing Access Control" finding (from the weighted
detector) in the high bucket — adding the owner check does not remove
the finding from the audit result. -/
theorem owner_check_insufficient :
    hasSub c9_content "pub fn" = true ∧
    hasSub c9_content "require!(msg.sender" = true ∧
    access_control_check c9_content = [⟨lit "Uninitialized Admin Role", Severity.critical,
      lit "Contract may lack proper administrative controls",
      lit "Initialize admin roles in constructor or initialization function"⟩] ∧
    (analyze create_default_rules c9_content).map
      (fun p => p.2.high_vulnerabilities.map (fun v => v.name)) =
      some [lit "Missing Access Control"] :=
  ⟨by decide, by decide, by decide, by with_unfolding_all decide⟩
end CliAgent
